import Mathlib

/-!
Shallow embedding of the Wa-Bot conversation engine and its services
(`src/handlers/message.ts`, `src/services/orderService.ts`,
`src/plugins/delivery.ts` (utils section), `src/plugins/sessionManager.ts`).

JavaScript values are modelled as follows: numbers as `Int` (all the
monetary and timestamp arithmetic in the source is integer-shaped
addition/comparison), nullable/optional values as `Option`, JS objects
used as string-keyed dictionaries as functions `String → α` (for the
per-sender global maps) or association lists (for the sessions file),
and JS truthiness tests as explicit `jsTruthy*` functions (`0`, `""`,
`null`/`undefined` are falsy).
-/

namespace WaBot

/-- JS truthiness of an optional number: `undefined`/`null` and `0` are falsy. -/
def jsTruthyN : Option Int → Bool
  | none => false
  | some v => v != 0

/-- JS truthiness of an optional string: `undefined`/`null` and `""` are falsy. -/
def jsTruthyS : Option String → Bool
  | none => false
  | some s => s != ""

/-- Model of the JS expression `v || d` for an optional string `v`. -/
def jsOrStr (v : Option String) (d : String) : String :=
  if jsTruthyS v then v.getD d else d

/-- Model of the JS expression `v || d` for an optional number `v`. -/
def jsOrNum (v : Option Int) (d : Int) : Int :=
  if jsTruthyN v then v.getD d else d

/-- Model of `String(x)` applied to a nullable value (`String(null) = "null"`). -/
def jsString (v : Option String) : String := v.getD "null"

/-- Contiguous-sublist test over character lists, scanning left to right. -/
def listContains (needle : List Char) : List Char → Bool
  | [] => needle.isPrefixOf []
  | c :: t => needle.isPrefixOf (c :: t) || listContains needle t

/-- Model of `hay.includes(needle)` (substring containment). -/
def strIncludes (hay needle : String) : Bool := listContains needle.data hay.data

/-- Model of `s.toLowerCase()` (on the ASCII repertoire; accented letters are
handled by `foldChar` below where the source combines lower-casing with NFD). -/
def strLowerJS (s : String) : String := String.mk (s.data.map Char.toLower)

/-- Char-level model of `toLowerCase().normalize("NFD").replace(/[̀-ͯ]/g, "")`
from `normalizeText` in the utils plugin, restricted to the Latin-1 Spanish
repertoire the bot works with: an accented letter lower-cases and then decomposes
into its base letter plus a combining mark in U+0300–U+036F, which the replace
deletes; a standalone combining mark is deleted; anything else is lower-cased. -/
def foldChar (c : Char) : List Char :=
  if c = 'á' ∨ c = 'Á' then ['a']
  else if c = 'é' ∨ c = 'É' then ['e']
  else if c = 'í' ∨ c = 'Í' then ['i']
  else if c = 'ó' ∨ c = 'Ó' then ['o']
  else if c = 'ú' ∨ c = 'Ú' then ['u']
  else if c = 'ü' ∨ c = 'Ü' then ['u']
  else if c = 'ñ' ∨ c = 'Ñ' then ['n']
  else if 0x300 ≤ c.toNat ∧ c.toNat ≤ 0x36F then []
  else [c.toLower]

/-- Model of `normalizeText` (`src/plugins/delivery.ts` utils section, lines 242–244):
lower-case and strip diacritics. -/
def normalizeText (s : String) : String := String.mk (s.data.map foldChar).flatten

/-- Whitespace characters removed by `trim()` (the usual ASCII whitespace). -/
def isJsSpace (c : Char) : Bool := c = ' ' ∨ c = '\t' ∨ c = '\n' ∨ c = '\r'

/-- Model of `s.trim()`: drop leading and trailing whitespace. -/
def strTrim (s : String) : String :=
  String.mk (((s.data.dropWhile isJsSpace).reverse.dropWhile isJsSpace).reverse)

/-- Model of `message.content?.trim() || ""`. -/
def jsContentTrim (c : Option String) : String := (c.map strTrim).getD ""

/-- Model of `sender.split('@')[0]`: the prefix before the first `@`. -/
def jidUser (s : String) : String := String.mk (s.data.takeWhile (fun c => c ≠ '@'))

example : normalizeText "Sí" = "si" := by decide
example : normalizeText "GORRA Azul" = "gorra azul" := by decide
example : strIncludes "gorra azul" "azul" = true := by decide
example : jsContentTrim (some "  Bogotá ") = "Bogotá" := by decide
example : jidUser "573001112233@s.whatsapp.net" = "573001112233" := by decide

/-! ## Data model (`src/handlers/message.ts` types, `src/services/orderService.ts` Order) -/

/-- Type `ProductDataType` from `src/handlers/message.ts` (a row of `data.json`).
`ID` is `string | number | null` in the source; it is only ever used through
`String(...)` or stored verbatim, so it is modelled as an optional string. -/
structure ProductData where
  ID : Option String := none
  Nombre : Option String := none
  Descripcion : Option String := none
  Precio : Option Int := none
  Stock : Option Int := none
  ImagenURL : Option String := none
deriving DecidableEq, Repr

/-- The `stage` field of `FormState` in `src/handlers/message.ts`. -/
inductive FormStage
  | basicName | basicId | basicConfirmation
  | addressBarrio | addressAddress | addressCity
  | finalConfirmation
deriving DecidableEq, Repr

/-- Type `FormState` from `src/handlers/message.ts`. -/
structure FormState where
  stage : FormStage
  name : Option String := none
  idNumber : Option String := none
  address : Option String := none
  barrio : Option String := none
  city : Option String := none
  deliveryCost : Option Int := none
  mapImagePath : Option String := none
deriving DecidableEq, Repr

/-- A value of the `awaitingConfirmation` map: JS `undefined`, the literal
`true` (simple yes/no confirmation of a matched product), or a `FormState`
object. -/
inductive ConfEntry
  | absent
  | simple
  | form (fs : FormState)
deriving DecidableEq, Repr

/-- An entry of the global `formData` map (`FormData` in `src/handlers/message.ts`). -/
structure FormDataEntry where
  name : Option String := none
  idNumber : Option String := none
  address : Option String := none
  barrio : Option String := none
  city : Option String := none
  deliveryCost : Option Int := none
deriving DecidableEq, Repr

/-- Order status enum from `src/services/orderService.ts`. -/
inductive OrderStatus
  | new | processing | completed | cancelled
deriving DecidableEq, Repr

/-- The embedded customer snapshot of an `Order`. -/
structure Customer where
  name : String
  idNumber : String
  phone : String
  address : String
  barrio : String
  city : String
deriving DecidableEq, Repr

/-- The embedded product snapshot of an `Order` (`id` is `string | number | null`
in the source, modelled as an optional string like `ProductData.ID`). -/
structure ProductSnapshot where
  id : Option String
  name : Option String
  description : Option String
  price : Option Int
  imageUrl : Option String
deriving DecidableEq, Repr

/-- The embedded payment snapshot of an `Order`. -/
structure PaymentSnapshot where
  total : Int
  productPrice : Int
  deliveryCost : Int
  imagePath : String
deriving DecidableEq, Repr

/-- Type `Order` from `src/services/orderService.ts`. -/
structure Order where
  id : String
  timestamp : Int
  status : OrderStatus
  customer : Customer
  product : ProductSnapshot
  payment : PaymentSnapshot
  attendedBy : Option String := none
  attendedTimestamp : Option Int := none
deriving DecidableEq, Repr

/-- The `Omit<Order, 'id' | 'timestamp' | 'status'>` argument of `createOrder`. -/
structure OrderDraft where
  customer : Customer
  product : ProductSnapshot
  payment : PaymentSnapshot
deriving DecidableEq, Repr

/-- Type `OrderSearchCriteria` from `src/services/orderService.ts`. -/
structure OrderSearchCriteria where
  status : Option OrderStatus := none
  fromDate : Option Int := none
  toDate : Option Int := none
  customerId : Option String := none
  customerName : Option String := none
  customerPhone : Option String := none
  productId : Option String := none
  productName : Option String := none
  minTotal : Option Int := none
  maxTotal : Option Int := none
  attendedBy : Option String := none
deriving DecidableEq, Repr

/-! ## Order ledger operations (`src/services/orderService.ts`) -/

/-- Function `createOrder` (lines 141–159): assign id/timestamp/`'new'` status from the
draft, append to the loaded order list, save.  The file round-trip
(`loadOrders`/`saveOrders`) is modelled by passing the ledger list in and out. -/
def createOrder (orders : List Order) (newId : String) (now : Int) (d : OrderDraft) : List Order × Order :=
  let newOrder : Order :=
    { id := newId, timestamp := now, status := .new,
      customer := d.customer, product := d.product, payment := d.payment }
  (orders ++ [newOrder], newOrder)

/-- The in-place mutation performed by `updateOrderStatus` (lines 172–177) on the
order found at `orderIndex`: set `status`; when the status is `'completed'` and
`attendedBy` is truthy, also set `attendedBy` and `attendedTimestamp`. -/
def applyStatus (o : Order) (status : OrderStatus) (attendedBy : Option String) (now : Int) : Order :=
  let o1 := { o with status := status }
  if decide (status = .completed) && jsTruthyS attendedBy then
    { o1 with attendedBy := attendedBy, attendedTimestamp := some now }
  else o1

/-- Function `updateOrderStatus` (lines 162–187): find the first order with the given id
(`findIndex`), mutate it in place, save, return it; `null` when not found. -/
def updateOrderStatus : List Order → String → OrderStatus → Option String → Int → List Order × Option Order
  | [], _, _, _, _ => ([], none)
  | o :: rest, orderId, status, attendedBy, now =>
    if o.id = orderId then
      let o' := applyStatus o status attendedBy now
      (o' :: rest, some o')
    else
      let r := updateOrderStatus rest orderId status attendedBy now
      (o :: r.1, r.2)

/-- One guarded filter line of `searchOrders` for a numeric criterion:
`if (criteria.x && violation) return false`, i.e. pass unless the criterion is
truthy and the requirement `p` fails. -/
def guardN (crit : Option Int) (p : Int → Bool) : Bool :=
  if jsTruthyN crit then p (crit.getD 0) else true

/-- One guarded filter line of `searchOrders` for a string criterion. -/
def guardS (crit : Option String) (p : String → Bool) : Bool :=
  if jsTruthyS crit then p (crit.getD "") else true

/-- The filter predicate of `searchOrders` (lines 200–226), one conjunct per
early-return line of the source. -/
def orderMatches (c : OrderSearchCriteria) (o : Order) : Bool :=
  (match c.status with | some s => decide (o.status = s) | none => true) &&
  guardN c.fromDate (fun t => decide (t ≤ o.timestamp)) &&
  guardN c.toDate (fun t => decide (o.timestamp ≤ t)) &&
  guardS c.customerId (fun cid => decide (o.customer.idNumber = cid)) &&
  guardS c.customerName (fun cn => strIncludes (strLowerJS o.customer.name) (strLowerJS cn)) &&
  guardS c.customerPhone (fun cp => strIncludes o.customer.phone cp) &&
  guardS c.productId (fun pid => decide (o.product.id = some pid)) &&
  guardS c.productName (fun pn =>
    match o.product.name with
    | some nm => strIncludes (strLowerJS nm) (strLowerJS pn)
    | none => false) &&
  guardN c.minTotal (fun mt => decide (mt ≤ o.payment.total)) &&
  guardN c.maxTotal (fun mt => decide (o.payment.total ≤ mt)) &&
  guardS c.attendedBy (fun ab =>
    match o.attendedBy with
    | some a => jsTruthyS (some a) && strIncludes (strLowerJS a) (strLowerJS ab)
    | none => false)

/-- Function `searchOrders` (lines 197–227) over an explicit ledger list. -/
def searchOrders (c : OrderSearchCriteria) (orders : List Order) : List Order :=
  orders.filter (orderMatches c)

/-! ## Session store (`src/plugins/delivery.ts` utils section, `src/plugins/sessionManager.ts`) -/

/-- Outcome of the `JSON.parse` call inside `loadSessions`; the parser is an
external library call, so its result on the file's content is an input of the
model.  `err` stands for `JSON.parse` raising `SyntaxError`. -/
inductive ParseOutcome
  | ok (m : List (String × Option Int))
  | err
deriving DecidableEq, Repr

/-- Model of `loadSessions` (utils section, lines 232–236): when the sessions
file exists its content is parsed and replaces the in-memory map, and a parse
failure propagates to the caller (there is no try/catch around `JSON.parse`);
when the file does not exist the current map is kept.  `Except.error` models an
exception escaping `loadSessions`. -/
def loadSessionsModel (fileExists : Bool) (parsed : ParseOutcome)
    (current : List (String × Option Int)) : Except Unit (List (String × Option Int)) :=
  if fileExists then
    match parsed with
    | .ok m => .ok m
    | .err => .error ()
  else .ok current

/-- Truthiness test `userData && userData.lastTime` from `checkExpiredSessions`
applied to a session record's nullable `lastTime`. -/
def sessionExpired (now timeout : Int) (lastTime : Option Int) : Bool :=
  match lastTime with
  | some t => t != 0 && now - t > timeout
  | none => false

/-- Function `checkExpiredSessions` (`src/plugins/sessionManager.ts`, lines 19–63)
restricted to its effect on the sessions map: every entry whose elapsed
inactivity exceeds the timeout is deleted, the rest are kept. -/
def checkExpiredSessions (now timeout : Int) (sessions : List (String × Option Int)) :
    List (String × Option Int) :=
  sessions.filter (fun e => !sessionExpired now timeout e.2)

/-- The `expiredSessions` list collected by one run of `checkExpiredSessions`:
the senders it evicts (and sends a goodbye message to). -/
def expiredSessions (now timeout : Int) (sessions : List (String × Option Int)) : List String :=
  (sessions.filter (fun e => sessionExpired now timeout e.2)).map Prod.fst

/-! ## Conversation engine (`src/handlers/message.ts`) -/

/-- The `StageType` union of `src/handlers/message.ts`. -/
inductive StageType
  | confirmation | payment | product | new
deriving DecidableEq, Repr

/-- The global per-sender maps and durable stores the handler reads and writes.
The JS objects keyed by sender jid are modelled as total functions from
`String`; `awaitingPayment`/`awaitingProduct` hold only `true`, `false` or are
deleted, and are only ever read for truthiness, so they collapse to `Bool`.
`sessions` merges "no record" with "record with null/0 lastTime" (both falsy
everywhere they are read).  `orders` is the durable order ledger behind
`loadOrders`/`saveOrders`. -/
structure BotState where
  awaitingConfirmation : String → ConfEntry
  selectedProduct : String → Option ProductData
  formData : String → Option FormDataEntry
  awaitingPayment : String → Bool
  awaitingProduct : String → Bool
  sessions : String → Option Int
  orders : List Order

/-- Pointwise update of a string-keyed map. -/
def upd {α : Type} (m : String → α) (k : String) (v : α) : String → α :=
  fun s => if s = k then v else m s

/-- The initialisation of the global maps (`message.ts` lines 66–70) and an
empty ledger. -/
def initialBotState : BotState :=
  { awaitingConfirmation := fun _ => .absent
    selectedProduct := fun _ => none
    formData := fun _ => none
    awaitingPayment := fun _ => false
    awaitingProduct := fun _ => false
    sessions := fun _ => none
    orders := [] }

/-- The parts of a `FormattedMessage` the handler reads. -/
structure Msg where
  fromMe : Bool
  sender : String
  content : Option String
  hasImage : Bool

/-- Outcome of the payment branch's interaction with the outside world: the
whole branch body is wrapped in one try/catch, so an exception thrown before
`createOrder` leaves every store untouched, one thrown after `createOrder`
(while confirming to the customer) leaves the ledger written but the per-sender
maps uncleared, and the normal path does both. -/
inductive PaymentOutcome
  | earlyFail | afterOrderFail | ok
deriving DecidableEq, Repr

/-- The external effects one handler invocation can consume: the delivery-cost
quote (`axios.post` to `/calculate`; `none` models a thrown error), the map
image download that follows it, the catalog file/refresh read (`none` models
the catch around the product search), the payment branch outcome, the receipt
image path, the fresh uuid and the clock. -/
structure Env where
  quote : Option (Int × String)
  mapImageOk : Bool
  catalog : Option (List ProductData)
  payment : PaymentOutcome
  paymentImagePath : String
  newOrderId : String
  now : Int

/-- Truthiness of an `awaitingConfirmation` entry. -/
def confTruthy : ConfEntry → Bool
  | .absent => false
  | _ => true

/-- Stage resolution (`message.ts` lines 87–91). -/
def resolveStage (st : BotState) (sender : String) : StageType :=
  if confTruthy (st.awaitingConfirmation sender) then .confirmation
  else if st.awaitingPayment sender then .payment
  else if st.awaitingProduct sender then .product
  else .new

/-- The raw yes test used at every confirmation point
(`message.content === 'si' || ... === 'Si' || ... === 'SI' || ... === 'sI'`). -/
def isRawYes (c : Option String) : Bool :=
  c == some "si" || c == some "Si" || c == some "SI" || c == some "sI"

/-- The raw no test used at every confirmation point. -/
def isRawNo (c : Option String) : Bool :=
  c == some "no" || c == some "No" || c == some "NO" || c == some "nO"

/-- Truthiness of `message.content`. -/
def contentTruthy (c : Option String) : Bool :=
  match c with
  | some s => s != ""
  | none => false

/-- Writing `awaitingConfirmation[sender] = e` (or deleting it, for `.absent`). -/
def setConf (st : BotState) (sender : String) (e : ConfEntry) : BotState :=
  { st with awaitingConfirmation := upd st.awaitingConfirmation sender e }

/-- The form-state branch of the `'confirmation'` case (`message.ts` lines 99–253). -/
def stepFormState (env : Env) (st : BotState) (sender : String) (content : Option String)
    (fs : FormState) : BotState :=
  match fs.stage with
  | .basicName =>
    setConf st sender (.form { fs with name := some (jsContentTrim content), stage := .basicId })
  | .basicId =>
    setConf st sender (.form { fs with idNumber := some (jsContentTrim content), stage := .basicConfirmation })
  | .basicConfirmation =>
    if isRawYes content then
      setConf st sender (.form { fs with stage := .addressBarrio })
    else if isRawNo content then
      setConf st sender (.form { fs with stage := .basicName })
    else st
  | .addressBarrio =>
    setConf st sender (.form { fs with barrio := some (jsContentTrim content), stage := .addressAddress })
  | .addressAddress =>
    setConf st sender (.form { fs with address := some (jsContentTrim content), stage := .addressCity })
  | .addressCity =>
    let fs1 := { fs with city := some (jsContentTrim content) }
    match env.quote with
    | none =>
      setConf st sender (.form fs1)
    | some q =>
      let fs2 := { fs1 with deliveryCost := some q.1, mapImagePath := some q.2 }
      if env.mapImageOk then
        setConf st sender (.form { fs2 with stage := .finalConfirmation })
      else
        setConf st sender (.form fs2)
  | .finalConfirmation =>
    if isRawYes content then
      { st with
        formData := upd st.formData sender (some
          { name := fs.name, idNumber := fs.idNumber, barrio := fs.barrio,
            address := fs.address, city := fs.city, deliveryCost := fs.deliveryCost }),
        awaitingPayment := upd st.awaitingPayment sender true,
        awaitingConfirmation := upd st.awaitingConfirmation sender .absent }
    else if isRawNo content then
      { st with
        awaitingConfirmation := upd st.awaitingConfirmation sender .absent,
        selectedProduct := upd st.selectedProduct sender none,
        formData := upd st.formData sender none,
        awaitingProduct := upd st.awaitingProduct sender true }
    else st

/-- The simple-confirmation branch of the `'confirmation'` case
(`message.ts` lines 254–283). -/
def stepSimpleConfirmation (st : BotState) (sender : String) (content : Option String) : BotState :=
  if isRawYes content then
    setConf st sender (.form { stage := .basicName })
  else if isRawNo content then
    { st with
      awaitingProduct := upd st.awaitingProduct sender true,
      awaitingConfirmation := upd st.awaitingConfirmation sender .absent }
  else st

/-- The search predicate of the `'product'` case (`message.ts` lines 298–302):
normalized substring match against `Nombre`, then `Descripcion`, then `ID`. -/
def productPred (response : String) (item : ProductData) : Bool :=
  strIncludes (normalizeText (jsString item.Nombre)) response ||
  strIncludes (normalizeText (jsString item.Descripcion)) response ||
  strIncludes (normalizeText (jsString item.ID)) response

/-- The catalog lookup of the `'product'` case: `data.find(...)` on the parsed
`data.json` rows, with the query normalized at the call site. -/
def searchProduct (data : List ProductData) (raw : String) : Option ProductData :=
  data.find? (productPred (normalizeText raw))

/-- The `'product'` case (`message.ts` lines 286–356). -/
def stepProduct (env : Env) (st : BotState) (sender : String) (content : Option String) : BotState :=
  if contentTruthy content then
    match env.catalog with
    | none => st
    | some data =>
      match searchProduct data (content.getD "") with
      | some p =>
        { st with
          selectedProduct := upd st.selectedProduct sender (some p),
          awaitingProduct := upd st.awaitingProduct sender false,
          awaitingConfirmation := upd st.awaitingConfirmation sender .simple }
      | none => st
  else st

/-- The order draft built by the payment branch (`message.ts` lines 469–491). -/
def paymentDraft (st : BotState) (env : Env) (sender : String) : OrderDraft :=
  let fdi := (st.formData sender).getD {}
  let pd := (st.selectedProduct sender).getD {}
  let senderNumber := "+" ++ jidUser sender
  { customer :=
      { name := jsOrStr fdi.name "N/A", idNumber := jsOrStr fdi.idNumber "N/A",
        phone := senderNumber, address := jsOrStr fdi.address "N/A",
        barrio := jsOrStr fdi.barrio "N/A", city := jsOrStr fdi.city "N/A" },
    product :=
      { id := pd.ID, name := pd.Nombre, description := pd.Descripcion,
        price := pd.Precio, imageUrl := pd.ImagenURL },
    payment :=
      { total := if jsTruthyN pd.Precio then pd.Precio.getD 0 + jsOrNum fdi.deliveryCost 0 else 0,
        productPrice := jsOrNum pd.Precio 0,
        deliveryCost := jsOrNum fdi.deliveryCost 0,
        imagePath := env.paymentImagePath } }

/-- The `'payment'` case (`message.ts` lines 358–517). -/
def stepPayment (env : Env) (st : BotState) (sender : String) (hasImage : Bool) : BotState :=
  if hasImage then
    match env.payment with
    | .earlyFail => st
    | .afterOrderFail =>
      { st with orders := (createOrder st.orders env.newOrderId env.now (paymentDraft st env sender)).1 }
    | .ok =>
      { st with
        orders := (createOrder st.orders env.newOrderId env.now (paymentDraft st env sender)).1,
        awaitingPayment := upd st.awaitingPayment sender false,
        awaitingProduct := upd st.awaitingProduct sender false,
        awaitingConfirmation := upd st.awaitingConfirmation sender .absent,
        selectedProduct := upd st.selectedProduct sender none,
        formData := upd st.formData sender none,
        sessions := upd st.sessions sender none }
  else st

/-- First-contact test of the `'new'` case
(`!userData.lastTime || (now - userData.lastTime) > 30 * 60 * 1000`). -/
def jsFreshNeeded (now : Int) (lastTime : Option Int) : Bool :=
  match lastTime with
  | none => true
  | some t => t == 0 || now - t > 30 * 60 * 1000

/-- Function `MessageHandler` (`message.ts` lines 80–573), with fuel counting handler
invocations: the `'new'` branch for an existing fresh session re-invokes the
handler on the same message after setting `awaitingProduct[sender]`, and `none`
marks fuel exhaustion (i.e. a recursion deeper than the fuel allows). -/
def MessageHandlerFuel : Nat → Env → BotState → Msg → Option BotState
  | 0, _, _, _ => none
  | fuel + 1, env, st, m =>
    if m.fromMe then some st
    else
      let sender := m.sender
      match resolveStage st sender with
      | .confirmation =>
        some (match st.awaitingConfirmation sender with
          | .form fs => stepFormState env st sender m.content fs
          | _ => stepSimpleConfirmation st sender m.content)
      | .payment => some (stepPayment env st sender m.hasImage)
      | .product => some (stepProduct env st sender m.content)
      | .new =>
        if !(sender.endsWith "@g.us") && sender != "" then
          if jsFreshNeeded env.now (st.sessions sender) then
            some { st with
              sessions := upd st.sessions sender (some env.now),
              awaitingProduct := upd st.awaitingProduct sender true }
          else if contentTruthy m.content then
            MessageHandlerFuel fuel env
              { st with awaitingProduct := upd st.awaitingProduct sender true } m
          else some st
        else some st

/-- One complete processing of an inbound message: run the handler with enough
fuel for the single re-dispatch the source performs. -/
def MessageHandlerStep (env : Env) (st : BotState) (m : Msg) : BotState :=
  (MessageHandlerFuel 2 env st m).getD st

/-- Recursion-free closed form of one handler invocation: the single
re-dispatch of the `'new'` branch is inlined as the `'product'` branch run on
the state with `awaitingProduct[sender]` set. -/
def MessageHandlerRun (env : Env) (st : BotState) (m : Msg) : BotState :=
  if m.fromMe then st
  else
    match resolveStage st m.sender with
    | .confirmation =>
      (match st.awaitingConfirmation m.sender with
        | .form fs => stepFormState env st m.sender m.content fs
        | _ => stepSimpleConfirmation st m.sender m.content)
    | .payment => stepPayment env st m.sender m.hasImage
    | .product => stepProduct env st m.sender m.content
    | .new =>
      if !(m.sender.endsWith "@g.us") && m.sender != "" then
        if jsFreshNeeded env.now (st.sessions m.sender) then
          { st with
            sessions := upd st.sessions m.sender (some env.now),
            awaitingProduct := upd st.awaitingProduct m.sender true }
        else if contentTruthy m.content then
          stepProduct env
            { st with awaitingProduct := upd st.awaitingProduct m.sender true } m.sender m.content
        else st
      else st

/-! ## Stage-resolution facts -/

theorem resolveStage_confirmation_elim {st : BotState} {s : String}
    (h : resolveStage st s = .confirmation) :
    confTruthy (st.awaitingConfirmation s) = true := by
  by_cases h1 : confTruthy (st.awaitingConfirmation s)
  · exact h1
  · by_cases h2 : st.awaitingPayment s <;> by_cases h3 : st.awaitingProduct s <;>
      simp [resolveStage, h1, h2, h3] at h

theorem resolveStage_payment_elim {st : BotState} {s : String}
    (h : resolveStage st s = .payment) :
    confTruthy (st.awaitingConfirmation s) = false ∧ st.awaitingPayment s = true := by
  by_cases h1 : confTruthy (st.awaitingConfirmation s) <;>
    by_cases h2 : st.awaitingPayment s <;> by_cases h3 : st.awaitingProduct s <;>
    simp [resolveStage, h1, h2, h3] at h ⊢

theorem resolveStage_product_elim {st : BotState} {s : String}
    (h : resolveStage st s = .product) :
    confTruthy (st.awaitingConfirmation s) = false ∧ st.awaitingPayment s = false ∧
      st.awaitingProduct s = true := by
  by_cases h1 : confTruthy (st.awaitingConfirmation s) <;>
    by_cases h2 : st.awaitingPayment s <;> by_cases h3 : st.awaitingProduct s <;>
    simp [resolveStage, h1, h2, h3] at h ⊢

theorem resolveStage_new_elim {st : BotState} {s : String}
    (h : resolveStage st s = .new) :
    confTruthy (st.awaitingConfirmation s) = false ∧ st.awaitingPayment s = false ∧
      st.awaitingProduct s = false := by
  by_cases h1 : confTruthy (st.awaitingConfirmation s) <;>
    by_cases h2 : st.awaitingPayment s <;> by_cases h3 : st.awaitingProduct s <;>
    simp [resolveStage, h1, h2, h3] at h ⊢

/-- After the re-dispatch writes `awaitingProduct[sender] = true`, the sender
resolves to the `'product'` stage. -/
theorem resolveStage_after_setProduct {st : BotState} {s : String}
    (h : resolveStage st s = .new) :
    resolveStage { st with awaitingProduct := upd st.awaitingProduct s true } s = .product := by
  obtain ⟨h1, h2, _⟩ := resolveStage_new_elim h
  simp [resolveStage, upd, h1, h2]

/-- A handler invocation whose sender already resolves to the `'product'` stage
returns in one step whatever fuel is left. -/
theorem messageHandlerFuel_product {n : Nat} {env : Env} {st : BotState} {m : Msg}
    (hf : m.fromMe = false) (hp : resolveStage st m.sender = .product) :
    MessageHandlerFuel (n + 1) env st m = some (stepProduct env st m.sender m.content) := by
  simp [MessageHandlerFuel, hf, hp]

/-- With fuel for one re-dispatch, the fueled handler computes the closed form. -/
theorem messageHandlerFuel_eq_run (n : Nat) (env : Env) (st : BotState) (m : Msg) :
    MessageHandlerFuel (n + 2) env st m = some (MessageHandlerRun env st m) := by
  by_cases hf : m.fromMe
  · simp [MessageHandlerFuel, MessageHandlerRun, hf]
  · rw [show n + 2 = (n + 1) + 1 from rfl]
    cases hr : resolveStage st m.sender
    · simp [MessageHandlerFuel, MessageHandlerRun, hf, hr]
    · simp [MessageHandlerFuel, MessageHandlerRun, hf, hr]
    · simp [MessageHandlerFuel, MessageHandlerRun, hf, hr]
    · by_cases hg : (!(m.sender.endsWith "@g.us") && m.sender != "") = true
      · by_cases hfr : jsFreshNeeded env.now (st.sessions m.sender)
        · simp [MessageHandlerFuel, MessageHandlerRun, hf, hr, hg, hfr]
        · by_cases hct : contentTruthy m.content
          · have hred := resolveStage_after_setProduct (s := m.sender) hr
            simp [MessageHandlerFuel, MessageHandlerRun, hf, hr, hg, hfr, hct]
            rw [hred]
          · simp [MessageHandlerFuel, MessageHandlerRun, hf, hr, hg, hfr, hct]
      · simp [MessageHandlerFuel, MessageHandlerRun, hf, hr, hg]

/-- One message is processed as the closed form. -/
theorem messageHandlerStep_eq_run (env : Env) (st : BotState) (m : Msg) :
    MessageHandlerStep env st m = MessageHandlerRun env st m := by
  have h := messageHandlerFuel_eq_run 0 env st m
  simp [MessageHandlerStep] at h ⊢
  rw [h]
  rfl

/-! ## The one-mode-per-sender invariant -/

/-- How many of the three mode flags are truthy for a sender. -/
def modeFlags (st : BotState) (s : String) : Nat :=
  (if confTruthy (st.awaitingConfirmation s) then 1 else 0) +
  (if st.awaitingPayment s then 1 else 0) +
  (if st.awaitingProduct s then 1 else 0)

/-- Every sender is in at most one of the confirmation, payment and product
modes (absence of all three meaning Idle/new). -/
def OneMode (st : BotState) : Prop := ∀ s, modeFlags st s ≤ 1

theorem pay_prod_false_of_conf {st : BotState} {s : String} (h : OneMode st)
    (hc : confTruthy (st.awaitingConfirmation s) = true) :
    st.awaitingPayment s = false ∧ st.awaitingProduct s = false := by
  have hm := h s
  unfold modeFlags at hm
  rw [hc] at hm
  by_cases hp : st.awaitingPayment s <;> by_cases hq : st.awaitingProduct s <;>
    simp [hp, hq] at hm ⊢

theorem oneMode_setConf {st : BotState} {sender : String} (h : OneMode st)
    (hp : st.awaitingPayment sender = false) (hq : st.awaitingProduct sender = false)
    (e : ConfEntry) : OneMode (setConf st sender e) := by
  intro s
  by_cases hs : s = sender
  · subst hs
    by_cases he : confTruthy e <;> simp [modeFlags, setConf, upd, he, hp, hq]
  · have := h s
    simpa [modeFlags, setConf, upd, hs] using this

theorem oneMode_stepFormState {env : Env} {st : BotState} {sender : String}
    {content : Option String} {fs : FormState} (h : OneMode st)
    (hp : st.awaitingPayment sender = false) (hq : st.awaitingProduct sender = false) :
    OneMode (stepFormState env st sender content fs) := by
  unfold stepFormState
  cases fs.stage
  · exact oneMode_setConf h hp hq _
  · exact oneMode_setConf h hp hq _
  · by_cases hy : isRawYes content <;> by_cases hn : isRawNo content <;>
      simp only [hy, hn, if_true, if_false] <;>
      first
        | exact oneMode_setConf h hp hq _
        | exact h
  · exact oneMode_setConf h hp hq _
  · exact oneMode_setConf h hp hq _
  · cases env.quote with
    | none => exact oneMode_setConf h hp hq _
    | some q =>
      by_cases hi : env.mapImageOk <;> simp only [hi, if_true, if_false] <;>
        exact oneMode_setConf h hp hq _
  · by_cases hy : isRawYes content
    · simp only [hy, if_true]
      intro s
      by_cases hs : s = sender
      · subst hs; simp [modeFlags, upd, hp, hq, confTruthy]
      · have := h s
        simpa [modeFlags, upd, hs] using this
    · by_cases hn : isRawNo content
      · simp only [hy, hn, if_true, if_false]
        intro s
        by_cases hs : s = sender
        · subst hs; simp [modeFlags, upd, hp, confTruthy]
        · have := h s
          simpa [modeFlags, upd, hs] using this
      · simp only [hy, hn, if_false]
        exact h

theorem oneMode_stepSimpleConfirmation {st : BotState} {sender : String}
    {content : Option String} (h : OneMode st)
    (hp : st.awaitingPayment sender = false) (hq : st.awaitingProduct sender = false) :
    OneMode (stepSimpleConfirmation st sender content) := by
  unfold stepSimpleConfirmation
  by_cases hy : isRawYes content
  · simp only [hy, if_true]
    exact oneMode_setConf h hp hq _
  · by_cases hn : isRawNo content
    · simp only [hy, hn, if_true, if_false]
      intro s
      by_cases hs : s = sender
      · subst hs; simp [modeFlags, upd, hp, confTruthy]
      · have := h s
        simpa [modeFlags, upd, hs] using this
    · simp only [hy, hn, if_false]
      exact h

theorem oneMode_stepProduct {env : Env} {st : BotState} {sender : String}
    {content : Option String} (h : OneMode st)
    (hp : st.awaitingPayment sender = false) :
    OneMode (stepProduct env st sender content) := by
  unfold stepProduct
  split
  · split
    · exact h
    · split
      · intro s
        by_cases hs : s = sender
        · subst hs; simp [modeFlags, upd, hp, confTruthy]
        · have := h s
          simpa [modeFlags, upd, hs] using this
      · exact h
  · exact h

theorem oneMode_stepPayment {env : Env} {st : BotState} {sender : String}
    {hasImage : Bool} (h : OneMode st) :
    OneMode (stepPayment env st sender hasImage) := by
  unfold stepPayment
  by_cases hi : hasImage
  · simp only [hi, if_true]
    cases env.payment
    · exact h
    · intro s
      have := h s
      simpa [modeFlags] using this
    · intro s
      by_cases hs : s = sender
      · subst hs; simp [modeFlags, upd, confTruthy]
      · have := h s
        simpa [modeFlags, upd, hs] using this
  · simp only [hi, if_false]
    exact h

theorem oneMode_setProductTrue {st : BotState} {sender : String} (h : OneMode st)
    (hc : confTruthy (st.awaitingConfirmation sender) = false)
    (hp : st.awaitingPayment sender = false) :
    OneMode { st with awaitingProduct := upd st.awaitingProduct sender true } := by
  intro s
  by_cases hs : s = sender
  · subst hs; simp [modeFlags, upd, hc, hp]
  · have := h s
    simpa [modeFlags, upd, hs] using this

theorem oneMode_run {env : Env} {st : BotState} {m : Msg} (h : OneMode st) :
    OneMode (MessageHandlerRun env st m) := by
  unfold MessageHandlerRun
  by_cases hf : m.fromMe
  · simpa [hf] using h
  · simp only [hf, if_false]
    cases hr : resolveStage st m.sender
    · have hc := resolveStage_confirmation_elim hr
      obtain ⟨hp, hq⟩ := pay_prod_false_of_conf h hc
      cases he : st.awaitingConfirmation m.sender
      · simp only [he]
        exact oneMode_stepSimpleConfirmation h hp hq
      · simp only [he]
        exact oneMode_stepSimpleConfirmation h hp hq
      · simp only [he]
        exact oneMode_stepFormState h hp hq
    · exact oneMode_stepPayment h
    · obtain ⟨hc, hp, _⟩ := resolveStage_product_elim hr
      exact oneMode_stepProduct h hp
    · obtain ⟨hc, hp, hq⟩ := resolveStage_new_elim hr
      by_cases hg : (!(m.sender.endsWith "@g.us") && m.sender != "") = true
      · simp only [hg, if_true]
        by_cases hfr : jsFreshNeeded env.now (st.sessions m.sender)
        · simp only [hfr, if_true]
          intro s
          by_cases hs : s = m.sender
          · subst hs; simp [modeFlags, upd, hc, hp]
          · have := h s
            simpa [modeFlags, upd, hs] using this
        · by_cases hct : contentTruthy m.content
          · simp only [hfr, hct, if_true, if_false]
            have h' := oneMode_setProductTrue h hc hp
            exact oneMode_stepProduct h' (by simpa [upd] using hp)
          · simp only [hfr, hct, if_false]
            exact h
      · simp only [hg, if_false]
        exact h

/-! ## Frame lemmas on the ledger and branch-selection lemmas -/

theorem orders_stepFormState (env : Env) (st : BotState) (sender : String)
    (content : Option String) (fs : FormState) :
    (stepFormState env st sender content fs).orders = st.orders := by
  unfold stepFormState
  cases fs.stage <;> (repeat' split) <;> rfl

theorem orders_stepSimpleConfirmation (st : BotState) (sender : String)
    (content : Option String) :
    (stepSimpleConfirmation st sender content).orders = st.orders := by
  unfold stepSimpleConfirmation
  (repeat' split) <;> rfl

theorem orders_stepProduct (env : Env) (st : BotState) (sender : String)
    (content : Option String) :
    (stepProduct env st sender content).orders = st.orders := by
  unfold stepProduct
  (repeat' split) <;> rfl

/-- A sender whose `awaitingConfirmation` entry is a form object is processed by
the form branch. -/
theorem run_form {env : Env} {st : BotState} {m : Msg} {fs : FormState}
    (hf : m.fromMe = false) (hcf : st.awaitingConfirmation m.sender = .form fs) :
    MessageHandlerStep env st m = stepFormState env st m.sender m.content fs := by
  rw [messageHandlerStep_eq_run]
  unfold MessageHandlerRun
  have hr : resolveStage st m.sender = .confirmation := by
    simp [resolveStage, hcf, confTruthy]
  simp [hf, hr, hcf]

/-- A sender whose `awaitingConfirmation` entry is the literal `true` is
processed by the simple-confirmation branch. -/
theorem run_simple {env : Env} {st : BotState} {m : Msg}
    (hf : m.fromMe = false) (hcf : st.awaitingConfirmation m.sender = .simple) :
    MessageHandlerStep env st m = stepSimpleConfirmation st m.sender m.content := by
  rw [messageHandlerStep_eq_run]
  unfold MessageHandlerRun
  have hr : resolveStage st m.sender = .confirmation := by
    simp [resolveStage, hcf, confTruthy]
  simp [hf, hr, hcf]

/-! ## Payment-snapshot arithmetic -/

/-- The `total` expression of the payment snapshot, as a function of the raw
optional `Precio` and `deliveryCost`, equals `productPrice + deliveryCost`
exactly when the recorded `productPrice` is non-zero, and `0` otherwise. -/
theorem totals_formula (v dc : Option Int) :
    (if jsTruthyN v then v.getD 0 + jsOrNum dc 0 else 0) =
      (if jsOrNum v 0 = 0 then 0 else jsOrNum v 0 + jsOrNum dc 0) := by
  cases v with
  | none => simp [jsTruthyN, jsOrNum]
  | some x =>
    by_cases hx : x = 0
    · simp [jsTruthyN, jsOrNum, hx]
    · simp [jsTruthyN, jsOrNum, hx]

theorem paymentDraft_total_eq (st : BotState) (env : Env) (sender : String) :
    (paymentDraft st env sender).payment.total =
      (if (paymentDraft st env sender).payment.productPrice = 0 then 0
       else (paymentDraft st env sender).payment.productPrice +
         (paymentDraft st env sender).payment.deliveryCost) := by
  have h := totals_formula ((st.selectedProduct sender).getD {}).Precio
    ((st.formData sender).getD {}).deliveryCost
  simpa [paymentDraft] using h

/-! ## First-match characterisation of `find?` -/

theorem find?_first_match {α : Type} (f : α → Bool) :
    ∀ (l : List α) (a : α),
      l.find? f = some a ↔
        f a = true ∧ ∃ pre post, l = pre ++ a :: post ∧ ∀ x ∈ pre, f x = false := by
  intro l
  induction l with
  | nil =>
    intro a
    constructor
    · intro h
      simp [List.find?] at h
    · rintro ⟨-, pre, post, heq, -⟩
      exact absurd heq (by simp)
  | cons b t ih =>
    intro a
    by_cases hb : f b
    · rw [List.find?_cons_of_pos _ hb]
      constructor
      · intro h
        have hba : b = a := by simpa using h
        subst hba
        exact ⟨hb, [], t, rfl, by simp⟩
      · rintro ⟨hfa, pre, post, heq, hpre⟩
        cases pre with
        | nil =>
          simp at heq
          simp [heq.1]
        | cons p pr =>
          have hbp : b = p ∧ t = pr ++ a :: post := by simpa using heq
          have : f b = false := hbp.1 ▸ hpre p (by simp)
          rw [this] at hb
          cases hb
    · rw [List.find?_cons_of_neg _ hb]
      rw [ih a]
      constructor
      · rintro ⟨hfa, pre, post, heq, hpre⟩
        refine ⟨hfa, b :: pre, post, by simp [heq], ?_⟩
        intro x hx
        rcases List.mem_cons.mp hx with hxb | hxp
        · subst hxb
          simpa using hb
        · exact hpre x hxp
      · rintro ⟨hfa, pre, post, heq, hpre⟩
        cases pre with
        | nil =>
          have hba : b = a ∧ t = post := by simpa using heq
          rw [hba.1] at hb
          exact absurd hfa hb
        | cons p pr =>
          have hbp : b = p ∧ t = pr ++ a :: post := by simpa using heq
          exact ⟨hfa, pr, post, hbp.2, fun x hx => hpre x (by simp [hx])⟩

/-! ## Filter algebra for the session sweep -/

theorem filter_self_idem {α : Type} (p : α → Bool) (l : List α) :
    (l.filter p).filter p = l.filter p := by
  induction l with
  | nil => rfl
  | cons a t ih =>
    by_cases h : p a <;> simp [List.filter_cons, h, ih]

theorem filter_neg_after_filter {α : Type} (p : α → Bool) (l : List α) :
    (l.filter (fun a => !p a)).filter p = [] := by
  induction l with
  | nil => rfl
  | cons a t ih =>
    by_cases h : p a <;> simp [List.filter_cons, h, ih]

/-! ## Claim theorems -/

/-- C3: for every sender and every reachable state of the engine, at most one
of `awaitingConfirmation[sender]`, `awaitingPayment[sender]`,
`awaitingProduct[sender]` is truthy: the invariant holds in the initial state
and is preserved by the processing of any message, so a sender is never
simultaneously awaiting payment and awaiting a product choice. -/
theorem claim_C3_one_mode_per_sender :
    OneMode initialBotState ∧
    ∀ env st m, OneMode st → OneMode (MessageHandlerStep env st m) := by
  constructor
  · intro s
    simp [modeFlags, initialBotState, confTruthy]
  · intro env st m h
    rw [messageHandlerStep_eq_run]
    exact oneMode_run h

def envW3 : Env :=
  { quote := none, mapImageOk := true, catalog := none, payment := .ok,
    paymentImagePath := "", newOrderId := "id-3", now := 0 }

def mW3 : Msg :=
  { fromMe := false, sender := "573001@s.whatsapp.net", content := some "hola", hasImage := false }

theorem claim_C3_one_mode_per_sender_witness :
    OneMode initialBotState ∧ OneMode (MessageHandlerStep envW3 initialBotState mW3) :=
  ⟨fun s => by simp [modeFlags, initialBotState, confTruthy],
   claim_C3_one_mode_per_sender.2 envW3 initialBotState mW3
     (fun s => by simp [modeFlags, initialBotState, confTruthy])⟩

/-- C9: the Idle-to-product re-dispatch terminates in a single pass: with fuel
for the top-level invocation plus exactly one re-invocation the fueled handler
always returns (the re-dispatch sets `awaitingProduct[sender]` before recursing,
so the recursive call resolves to the product stage and cannot recurse again),
and more fuel never changes the result. -/
theorem claim_C9_single_pass_redispatch :
    ∀ env st m,
      (MessageHandlerFuel 2 env st m).isSome = true ∧
      ∀ n, MessageHandlerFuel (2 + n) env st m = MessageHandlerFuel 2 env st m := by
  intro env st m
  have h2 : MessageHandlerFuel 2 env st m = some (MessageHandlerRun env st m) :=
    messageHandlerFuel_eq_run 0 env st m
  refine ⟨by rw [h2]; rfl, ?_⟩
  intro n
  have hn : MessageHandlerFuel (2 + n) env st m = some (MessageHandlerRun env st m) := by
    rw [show 2 + n = n + 2 from by omega]
    exact messageHandlerFuel_eq_run n env st m
  rw [hn, h2]

/-- C5: the catalog lookup returns the first product of the list, in declared
order, whose normalized name, description or identifier (tested in that order)
contains the normalized query as a substring; there is no ranking beyond
first-match-in-declared-order. -/
theorem claim_C5_first_match_lookup :
    ∀ data raw p,
      searchProduct data raw = some p ↔
        productPred (normalizeText raw) p = true ∧
        ∃ pre post, data = pre ++ p :: post ∧
          ∀ x ∈ pre, productPred (normalizeText raw) x = false := by
  intro data raw p
  unfold searchProduct
  exact find?_first_match _ data p

def catalogW5 : List ProductData :=
  [{ ID := some "1", Nombre := some "Camiseta Roja", Descripcion := some "Algodón" },
   { ID := some "2", Nombre := some "Gorra Azul", Descripcion := some "Con visera" },
   { ID := some "3", Nombre := some "Gorra Azul Marino", Descripcion := some "Edición" }]

theorem claim_C5_first_match_lookup_witness :
    searchProduct catalogW5 "GORRA azúl" = some (catalogW5.get ⟨1, by decide⟩) ∧
    productPred (normalizeText "GORRA azúl") (catalogW5.get ⟨1, by decide⟩) = true :=
  ⟨by decide,
   ((claim_C5_first_match_lookup catalogW5 "GORRA azúl" (catalogW5.get ⟨1, by decide⟩)).mp
     (by decide)).1⟩

/-- C6 (code bug): `loadSessions` only treats a *missing* sessions file as "no
sessions known"; when the file exists but `JSON.parse` fails, the exception
propagates to the caller instead of being swallowed — the failing evaluation is
the second conjunct. -/
theorem claim_C6_loadSessions_parse_raises :
    loadSessionsModel false ParseOutcome.err [("573001@s.whatsapp.net", some 5)] =
      .ok [("573001@s.whatsapp.net", some 5)] ∧
    loadSessionsModel true ParseOutcome.err [("573001@s.whatsapp.net", some 5)] =
      .error () := ⟨rfl, rfl⟩

/-- C7: the idle-session sweep is idempotent: for a fixed clock and timeout,
sweeping a swept map changes nothing, and the second sweep's evicted list is
empty. -/
theorem claim_C7_sweep_idempotent :
    ∀ now timeout sessions,
      checkExpiredSessions now timeout (checkExpiredSessions now timeout sessions) =
        checkExpiredSessions now timeout sessions ∧
      expiredSessions now timeout (checkExpiredSessions now timeout sessions) = [] := by
  intro now timeout sessions
  constructor
  · unfold checkExpiredSessions
    exact filter_self_idem _ _
  · unfold checkExpiredSessions expiredSessions
    rw [filter_neg_after_filter]
    rfl

/-- C10: `searchOrders` treats falsy criterion values as absent: a zero
`minTotal`/`maxTotal` bound and an empty-string customer or product filter
select exactly the orders the criterion-omitted search selects. -/
theorem claim_C10_falsy_criteria_ignored :
    ∀ (orders : List Order) (c : OrderSearchCriteria),
      searchOrders { c with minTotal := some 0 } orders =
        searchOrders { c with minTotal := none } orders ∧
      searchOrders { c with maxTotal := some 0 } orders =
        searchOrders { c with maxTotal := none } orders ∧
      searchOrders { c with customerId := some "" } orders =
        searchOrders { c with customerId := none } orders ∧
      searchOrders { c with customerName := some "" } orders =
        searchOrders { c with customerName := none } orders ∧
      searchOrders { c with customerPhone := some "" } orders =
        searchOrders { c with customerPhone := none } orders ∧
      searchOrders { c with productId := some "" } orders =
        searchOrders { c with productId := none } orders ∧
      searchOrders { c with productName := some "" } orders =
        searchOrders { c with productName := none } orders := by
  intro orders c
  refine ⟨?_, ?_, ?_, ?_, ?_, ?_, ?_⟩ <;>
    · unfold searchOrders
      apply List.filter_congr
      intro o _
      simp [orderMatches, guardN, guardS, jsTruthyN, jsTruthyS]

theorem applyStatus_frame (o : Order) (status : OrderStatus) (ab : Option String) (now : Int) :
    (applyStatus o status ab now).id = o.id ∧
    (applyStatus o status ab now).timestamp = o.timestamp ∧
    (applyStatus o status ab now).customer = o.customer ∧
    (applyStatus o status ab now).product = o.product ∧
    (applyStatus o status ab now).payment = o.payment ∧
    (applyStatus o status ab now).status = status ∧
    ((decide (status = .completed) && jsTruthyS ab) = false →
      (applyStatus o status ab now).attendedBy = o.attendedBy ∧
      (applyStatus o status ab now).attendedTimestamp = o.attendedTimestamp) := by
  unfold applyStatus
  by_cases h : (decide (status = OrderStatus.completed) && jsTruthyS ab) = true <;> simp [h]

/-- C8: `updateOrderStatus` on an existing order id rewrites exactly the first
order carrying that id, changing only its `status` (plus `attendedBy` and
`attendedTimestamp` precisely when the new status is `completed` with a truthy
actor); its id, timestamp, customer, product and payment snapshots, and every
other order of the ledger, are returned unchanged. -/
theorem claim_C8_updateOrderStatus_frame :
    ∀ orders orderId status ab now,
      (∃ o ∈ orders, o.id = orderId) →
      ∃ pre o post,
        orders = pre ++ o :: post ∧ o.id = orderId ∧ (∀ x ∈ pre, x.id ≠ orderId) ∧
        (updateOrderStatus orders orderId status ab now).1 =
          pre ++ applyStatus o status ab now :: post ∧
        (updateOrderStatus orders orderId status ab now).2 =
          some (applyStatus o status ab now) ∧
        (applyStatus o status ab now).id = o.id ∧
        (applyStatus o status ab now).timestamp = o.timestamp ∧
        (applyStatus o status ab now).customer = o.customer ∧
        (applyStatus o status ab now).product = o.product ∧
        (applyStatus o status ab now).payment = o.payment ∧
        (applyStatus o status ab now).status = status ∧
        ((decide (status = .completed) && jsTruthyS ab) = false →
          (applyStatus o status ab now).attendedBy = o.attendedBy ∧
          (applyStatus o status ab now).attendedTimestamp = o.attendedTimestamp) := by
  intro orders orderId status ab now hex
  induction orders with
  | nil => simp at hex
  | cons a t ih =>
    by_cases ha : a.id = orderId
    · obtain ⟨f1, f2, f3, f4, f5, f6, f7⟩ := applyStatus_frame a status ab now
      exact ⟨[], a, t, rfl, ha, by simp, by simp [updateOrderStatus, ha],
        by simp [updateOrderStatus, ha], f1, f2, f3, f4, f5, f6, f7⟩
    · have hex' : ∃ o ∈ t, o.id = orderId := by
        rcases hex with ⟨o, ho, hid⟩
        rcases List.mem_cons.mp ho with hoa | hot
        · rw [hoa] at hid
          exact absurd hid ha
        · exact ⟨o, hot, hid⟩
      obtain ⟨pre, o, post, h1, h2, h3, h4, h5, f1, f2, f3, f4, f5, f6, f7⟩ := ih hex'
      refine ⟨a :: pre, o, post, by simp [h1], h2, ?_, ?_, ?_, f1, f2, f3, f4, f5, f6, f7⟩
      · intro x hx
        rcases List.mem_cons.mp hx with hxa | hxp
        · rw [hxa]
          exact ha
        · exact h3 x hxp
      · simp [updateOrderStatus, ha, h4]
      · simp [updateOrderStatus, ha, h5]

def ordersW8 : List Order :=
  [{ id := "a", timestamp := 10, status := .new,
     customer := { name := "Ana", idNumber := "1", phone := "+57", address := "C1",
                   barrio := "B", city := "X" },
     product := { id := some "p1", name := some "Gorra", description := none,
                  price := some 100, imageUrl := none },
     payment := { total := 150, productPrice := 100, deliveryCost := 50, imagePath := "" } },
   { id := "b", timestamp := 20, status := .new,
     customer := { name := "Luis", idNumber := "2", phone := "+58", address := "C2",
                   barrio := "B2", city := "Y" },
     product := { id := some "p2", name := some "Bolso", description := none,
                  price := some 200, imageUrl := none },
     payment := { total := 260, productPrice := 200, deliveryCost := 60, imagePath := "" } }]

theorem claim_C8_updateOrderStatus_frame_witness :
    (∃ o ∈ ordersW8, o.id = "b") ∧
    ∃ pre o post,
      ordersW8 = pre ++ o :: post ∧ o.id = "b" ∧ (∀ x ∈ pre, x.id ≠ "b") ∧
      (updateOrderStatus ordersW8 "b" .processing none 99).1 =
        pre ++ applyStatus o .processing none 99 :: post ∧
      (updateOrderStatus ordersW8 "b" .processing none 99).2 =
        some (applyStatus o .processing none 99) ∧
      (applyStatus o .processing none 99).id = o.id ∧
      (applyStatus o .processing none 99).timestamp = o.timestamp ∧
      (applyStatus o .processing none 99).customer = o.customer ∧
      (applyStatus o .processing none 99).product = o.product ∧
      (applyStatus o .processing none 99).payment = o.payment ∧
      (applyStatus o .processing none 99).status = .processing ∧
      ((decide ((OrderStatus.processing) = .completed) && jsTruthyS none) = false →
        (applyStatus o .processing none 99).attendedBy = o.attendedBy ∧
        (applyStatus o .processing none 99).attendedTimestamp = o.attendedTimestamp) :=
  ⟨by decide, claim_C8_updateOrderStatus_frame ordersW8 "b" .processing none 99 (by decide)⟩

/-- C1 (amended): every order the payment-completion step appends to the ledger
satisfies `total = productPrice + deliveryCost` when the recorded
`productPrice` is non-zero, and `total = 0` when the selected product's price
was null or zero — in the latter case the recorded total ignores a positive
delivery cost, so the unconditional sum invariant fails exactly there. -/
theorem claim_C1_payment_totals :
    ∀ env st m o,
      o ∈ (MessageHandlerStep env st m).orders →
      o ∈ st.orders ∨
        o.payment.total =
          (if o.payment.productPrice = 0 then 0
           else o.payment.productPrice + o.payment.deliveryCost) := by
  intro env st m o ho
  rw [messageHandlerStep_eq_run] at ho
  unfold MessageHandlerRun at ho
  by_cases hf : m.fromMe
  · rw [if_pos hf] at ho
    exact .inl ho
  · rw [if_neg hf] at ho
    split at ho
    · split at ho
      · rw [orders_stepFormState] at ho
        exact .inl ho
      · rw [orders_stepSimpleConfirmation] at ho
        exact .inl ho
    · unfold stepPayment at ho
      split at ho
      · split at ho
        · exact .inl ho
        · simp only [createOrder] at ho
          rcases List.mem_append.mp ho with hin | hnew
          · exact .inl hin
          · have hoeq : o = (createOrder st.orders env.newOrderId env.now
                (paymentDraft st env m.sender)).2 := by simpa [createOrder] using hnew
            right
            rw [hoeq]
            exact paymentDraft_total_eq st env m.sender
        · simp only [createOrder] at ho
          rcases List.mem_append.mp ho with hin | hnew
          · exact .inl hin
          · have hoeq : o = (createOrder st.orders env.newOrderId env.now
                (paymentDraft st env m.sender)).2 := by simpa [createOrder] using hnew
            right
            rw [hoeq]
            exact paymentDraft_total_eq st env m.sender
      · exact .inl ho
    · rw [orders_stepProduct] at ho
      exact .inl ho
    · split at ho
      · split at ho
        · exact .inl (by simpa using ho)
        · split at ho
          · rw [orders_stepProduct] at ho
            exact .inl (by simpa using ho)
          · exact .inl ho
      · exact .inl ho

def stC1 : BotState :=
  { initialBotState with
    awaitingPayment := upd initialBotState.awaitingPayment "57300@s.whatsapp.net" true,
    selectedProduct := upd initialBotState.selectedProduct "57300@s.whatsapp.net"
      (some { ID := some "7", Nombre := some "Gorra", Descripcion := some "Una gorra" }),
    formData := upd initialBotState.formData "57300@s.whatsapp.net"
      (some { name := some "Ana", idNumber := some "123", address := some "Calle 1",
              barrio := some "Centro", city := some "Bogota", deliveryCost := some 5000 }) }

def envC1 : Env :=
  { quote := none, mapImageOk := true, catalog := none, payment := .ok,
    paymentImagePath := "/media/payments/p.jpg", newOrderId := "order-1", now := 1000 }

def mC1 : Msg :=
  { fromMe := false, sender := "57300@s.whatsapp.net", content := none, hasImage := true }

/-- C1 (counterexample): a payment completed for a selected product whose
`Precio` is null but with a positive collected delivery cost writes a ledger
entry with `total = 0`, `productPrice = 0`, `deliveryCost = 5000`, violating
`total == productPrice + deliveryCost`. -/
theorem claim_C1_payment_totals_counterexample :
    (MessageHandlerStep envC1 stC1 mC1).orders.map (fun o => o.payment) =
      [{ total := 0, productPrice := 0, deliveryCost := 5000,
         imagePath := "/media/payments/p.jpg" }] ∧
    ((MessageHandlerStep envC1 stC1 mC1).orders.all
      (fun o => o.payment.total == o.payment.productPrice + o.payment.deliveryCost)) = false :=
  ⟨by decide, by decide⟩

def stW1 : BotState :=
  { initialBotState with
    awaitingPayment := upd initialBotState.awaitingPayment "57300@s.whatsapp.net" true,
    selectedProduct := upd initialBotState.selectedProduct "57300@s.whatsapp.net"
      (some { ID := some "7", Nombre := some "Gorra", Precio := some 30000 }),
    formData := upd initialBotState.formData "57300@s.whatsapp.net"
      (some { name := some "Ana", idNumber := some "123", address := some "Calle 1",
              barrio := some "Centro", city := some "Bogota", deliveryCost := some 5000 }) }

def oW1 : Order :=
  { id := "order-1", timestamp := 1000, status := .new,
    customer := { name := "Ana", idNumber := "123", phone := "+57300",
                  address := "Calle 1", barrio := "Centro", city := "Bogota" },
    product := { id := some "7", name := some "Gorra", description := none,
                 price := some 30000, imageUrl := none },
    payment := { total := 35000, productPrice := 30000, deliveryCost := 5000,
                 imagePath := "/media/payments/p.jpg" } }

theorem claim_C1_payment_totals_witness :
    oW1 ∈ (MessageHandlerStep envC1 stW1 mC1).orders ∧
    (oW1 ∈ stW1.orders ∨
      oW1.payment.total =
        (if oW1.payment.productPrice = 0 then 0
         else oW1.payment.productPrice + oW1.payment.deliveryCost)) :=
  ⟨by decide, claim_C1_payment_totals envC1 stW1 mC1 oW1 (by decide)⟩

theorem stepFormState_addressCity_fail {env : Env} {st : BotState} {sender : String}
    {content : Option String} {fs : FormState}
    (hstage : fs.stage = .addressCity) (hq : env.quote = none) :
    stepFormState env st sender content fs =
      setConf st sender (.form { fs with city := some (jsContentTrim content) }) := by
  unfold stepFormState
  rw [hstage, hq]

theorem stepFormState_addressCity_ok {env : Env} {st : BotState} {sender : String}
    {content : Option String} {fs : FormState} {q : Int × String}
    (hstage : fs.stage = .addressCity) (hq : env.quote = some q) (hi : env.mapImageOk = true) :
    stepFormState env st sender content fs =
      setConf st sender (.form { fs with city := some (jsContentTrim content), deliveryCost := some q.1, mapImagePath := some q.2, stage := .finalConfirmation }) := by
  unfold stepFormState
  rw [hstage, hq]
  simp [hi]

/-- C2: when the delivery-cost call fails at the city-collection stage, the
form stays at `addressCity` and the collected name, id, barrio and address are
untouched; a subsequent city message from the same sender re-runs the quote
directly (no re-asking of neighborhood or address) and, on success, advances to
the final confirmation with the original barrio and address. -/
theorem claim_C2_quote_failure_preserves_stage :
    ∀ env st m fs,
      m.fromMe = false →
      st.awaitingConfirmation m.sender = .form fs →
      fs.stage = .addressCity →
      env.quote = none →
      ∃ fs1,
        (MessageHandlerStep env st m).awaitingConfirmation m.sender = .form fs1 ∧
        fs1.stage = .addressCity ∧ fs1.name = fs.name ∧ fs1.idNumber = fs.idNumber ∧
        fs1.barrio = fs.barrio ∧ fs1.address = fs.address ∧
        ∀ env2 m2 q,
          m2.fromMe = false → m2.sender = m.sender →
          env2.quote = some q → env2.mapImageOk = true →
          ∃ fs2,
            (MessageHandlerStep env2 (MessageHandlerStep env st m) m2).awaitingConfirmation
                m.sender = .form fs2 ∧
            fs2.stage = .finalConfirmation ∧ fs2.barrio = fs.barrio ∧
            fs2.address = fs.address ∧ fs2.deliveryCost = some q.1 := by
  intro env st m fs hf hcf hstage hq
  rw [run_form hf hcf, stepFormState_addressCity_fail hstage hq]
  refine ⟨{ fs with city := some (jsContentTrim m.content) }, by simp [setConf, upd],
    hstage, rfl, rfl, rfl, rfl, ?_⟩
  intro env2 m2 q hf2 hs2 hq2 hi2
  have hcf2 : (setConf st m.sender
      (.form { fs with city := some (jsContentTrim m.content) })).awaitingConfirmation
        m2.sender = .form { fs with city := some (jsContentTrim m.content) } := by
    rw [hs2]
    simp [setConf, upd]
  have hstage' : ({ fs with city := some (jsContentTrim m.content) } : FormState).stage =
      .addressCity := hstage
  rw [run_form hf2 hcf2, stepFormState_addressCity_ok hstage' hq2 hi2]
  refine ⟨{ stage := .finalConfirmation, name := fs.name, idNumber := fs.idNumber, address := fs.address, barrio := fs.barrio, city := some (jsContentTrim m2.content), deliveryCost := some q.1, mapImagePath := some q.2 }, ?_, rfl, rfl, rfl, rfl⟩
  rw [← hs2]
  simp [setConf, upd]

def fsW2 : FormState :=
  { stage := .addressCity, name := some "Ana", idNumber := some "9",
    address := some "Calle 2", barrio := some "Norte" }

def stW2 : BotState := setConf initialBotState "57301@s.whatsapp.net" (.form fsW2)

def envW2 : Env :=
  { quote := none, mapImageOk := true, catalog := none, payment := .ok,
    paymentImagePath := "", newOrderId := "id-2", now := 0 }

def mW2 : Msg :=
  { fromMe := false, sender := "57301@s.whatsapp.net", content := some "Bogota",
    hasImage := false }

theorem claim_C2_quote_failure_preserves_stage_witness :
    mW2.fromMe = false ∧
    stW2.awaitingConfirmation mW2.sender = .form fsW2 ∧
    fsW2.stage = .addressCity ∧
    envW2.quote = none ∧
    ∃ fs1,
      (MessageHandlerStep envW2 stW2 mW2).awaitingConfirmation mW2.sender = .form fs1 ∧
      fs1.stage = .addressCity ∧ fs1.name = fsW2.name ∧ fs1.idNumber = fsW2.idNumber ∧
      fs1.barrio = fsW2.barrio ∧ fs1.address = fsW2.address ∧
      ∀ env2 m2 q,
        m2.fromMe = false → m2.sender = mW2.sender →
        env2.quote = some q → env2.mapImageOk = true →
        ∃ fs2,
          (MessageHandlerStep env2 (MessageHandlerStep envW2 stW2 mW2) m2).awaitingConfirmation
              mW2.sender = .form fs2 ∧
          fs2.stage = .finalConfirmation ∧ fs2.barrio = fsW2.barrio ∧
          fs2.address = fsW2.address ∧ fs2.deliveryCost = some q.1 :=
  ⟨rfl, by decide, rfl, rfl,
   claim_C2_quote_failure_preserves_stage envW2 stW2 mW2 fsW2 rfl (by decide) rfl rfl⟩

theorem isRawYes_false_of_no {c : Option String} (h : isRawNo c = true) : isRawYes c = false := by
  cases c with
  | none => simp [isRawNo] at h
  | some s =>
    simp only [isRawNo, Bool.or_eq_true, beq_iff_eq, Option.some.injEq] at h
    rcases h with ((h | h) | h) | h <;> subst h <;> rfl

/-- C4 (amended): at each of the three confirmation points the inbound content
is compared *verbatim* against the four case variants `si`/`Si`/`SI`/`sI`
(resp. `no`/`No`/`NO`/`nO`) — no lower-casing or accent stripping is applied:
exactly those literal strings take the yes/no transitions, and any other
content (including accented `sí`) leaves the state unchanged and re-prompts. -/
theorem claim_C4_exact_si_no_variants :
    ∀ env st m,
      m.fromMe = false →
      ((st.awaitingConfirmation m.sender = .simple →
        (isRawYes m.content = true →
          (MessageHandlerStep env st m).awaitingConfirmation m.sender = .form { stage := .basicName }) ∧
        (isRawNo m.content = true →
          (MessageHandlerStep env st m).awaitingConfirmation m.sender = .absent ∧
          (MessageHandlerStep env st m).awaitingProduct m.sender = true) ∧
        (isRawYes m.content = false → isRawNo m.content = false →
          MessageHandlerStep env st m = st)) ∧
      (∀ fs, st.awaitingConfirmation m.sender = .form fs → fs.stage = .basicConfirmation →
        (isRawYes m.content = true →
          (MessageHandlerStep env st m).awaitingConfirmation m.sender = .form { fs with stage := .addressBarrio }) ∧
        (isRawNo m.content = true →
          (MessageHandlerStep env st m).awaitingConfirmation m.sender = .form { fs with stage := .basicName }) ∧
        (isRawYes m.content = false → isRawNo m.content = false →
          MessageHandlerStep env st m = st)) ∧
      (∀ fs, st.awaitingConfirmation m.sender = .form fs → fs.stage = .finalConfirmation →
        (isRawYes m.content = true →
          (MessageHandlerStep env st m).awaitingPayment m.sender = true ∧
          (MessageHandlerStep env st m).awaitingConfirmation m.sender = .absent) ∧
        (isRawNo m.content = true →
          (MessageHandlerStep env st m).awaitingConfirmation m.sender = .absent ∧
          (MessageHandlerStep env st m).awaitingProduct m.sender = true) ∧
        (isRawYes m.content = false → isRawNo m.content = false →
          MessageHandlerStep env st m = st))) := by
  intro env st m hf
  refine ⟨?_, ?_, ?_⟩
  · intro hsimple
    refine ⟨?_, ?_, ?_⟩
    · intro hy
      rw [run_simple hf hsimple]
      unfold stepSimpleConfirmation
      simp [hy, setConf, upd]
    · intro hn
      have hy := isRawYes_false_of_no hn
      rw [run_simple hf hsimple]
      unfold stepSimpleConfirmation
      simp [hy, hn, upd]
    · intro hy hn
      rw [run_simple hf hsimple]
      unfold stepSimpleConfirmation
      simp [hy, hn]
  · intro fs hform hstage
    refine ⟨?_, ?_, ?_⟩
    · intro hy
      rw [run_form hf hform]
      unfold stepFormState
      rw [hstage]
      simp [hy, setConf, upd]
    · intro hn
      have hy := isRawYes_false_of_no hn
      rw [run_form hf hform]
      unfold stepFormState
      rw [hstage]
      simp [hy, hn, setConf, upd]
    · intro hy hn
      rw [run_form hf hform]
      unfold stepFormState
      rw [hstage]
      simp [hy, hn]
  · intro fs hform hstage
    refine ⟨?_, ?_, ?_⟩
    · intro hy
      rw [run_form hf hform]
      unfold stepFormState
      rw [hstage]
      simp [hy, upd]
    · intro hn
      have hy := isRawYes_false_of_no hn
      rw [run_form hf hform]
      unfold stepFormState
      rw [hstage]
      simp [hy, hn, upd]
    · intro hy hn
      rw [run_form hf hform]
      unfold stepFormState
      rw [hstage]
      simp [hy, hn]

def fsC4 : FormState := { stage := .basicConfirmation, name := some "Ana", idNumber := some "9" }

def stC4 : BotState := setConf initialBotState "57304@s.whatsapp.net" (.form fsC4)

def envC4 : Env :=
  { quote := none, mapImageOk := true, catalog := none, payment := .ok,
    paymentImagePath := "", newOrderId := "id-4", now := 0 }

def mC4 : Msg :=
  { fromMe := false, sender := "57304@s.whatsapp.net", content := some "sí", hasImage := false }

/-- C4 (counterexample): the input `"sí"` equals `"si"` after lower-casing and
diacritic removal, yet at the `basicConfirmation` point it does not take the
yes transition — the handler leaves the state completely unchanged (the
re-prompt branch), because the comparison is raw string equality. -/
theorem claim_C4_normalized_yes_counterexample :
    normalizeText "sí" = "si" ∧
    stC4.awaitingConfirmation "57304@s.whatsapp.net" = .form fsC4 ∧
    MessageHandlerStep envC4 stC4 mC4 = stC4 :=
  ⟨by decide, by decide, rfl⟩

def stW4 : BotState := setConf initialBotState "57303@s.whatsapp.net" .simple

def mW4 : Msg :=
  { fromMe := false, sender := "57303@s.whatsapp.net", content := some "si", hasImage := false }

theorem claim_C4_exact_si_no_variants_witness :
    mW4.fromMe = false ∧
    stW4.awaitingConfirmation mW4.sender = .simple ∧
    isRawYes mW4.content = true ∧
    (MessageHandlerStep envC4 stW4 mW4).awaitingConfirmation mW4.sender =
      .form { stage := .basicName } :=
  ⟨rfl, by decide, by decide,
   (((claim_C4_exact_si_no_variants envC4 stW4 mW4 rfl).1) (by decide)).1 (by decide)⟩

end WaBot
